import Mathlib

/-!
Verification development for the CMC pump traceability application
(a single-file Python/Streamlit program, `app.py`).

The definitions below are a shallow embedding of the program's data model
and operations:

* strings are Lean `String`s, and the handful of Python / pandas string
  primitives used by the program (`strip`, `upper`, `lower`, substring
  containment, `re.split`) are re-implemented over `String.data`;
* pandas timestamps are modelled as `DateTime` (calendar date plus
  seconds-of-day); `pd.NaT` / missing cells are the `Cell.na` constructor;
* the pandas date parser `pd.to_datetime` is modelled for the numeric
  `n1/n2/yyyy` slash format actually exercised by the program
  (`dayfirst` hint with the swap-on-invalid fallback pandas applies);
* a table is a `List Row`; `pd.NA` patient cells are modelled as `""`
  (the program treats both as empty via `is_empty`, and `NA == x` is
  falsy in the filters it builds, matching `"" = x` being false for the
  non-empty values compared against);
* fallible external effects (file write, SMTP attempts) are passed in as
  `Except`/outcome parameters, and errors raised-and-caught in the
  program become values, so every embedded operation is total.
-/

namespace CmcApp

/-! ## String helpers (Python `strip`, `upper`, `lower`, `is_empty`) -/

/-- Python `str.strip()`: drop whitespace from both ends. -/
def strTrim (s : String) : String :=
  ⟨((s.data.dropWhile Char.isWhitespace).reverse.dropWhile Char.isWhitespace).reverse⟩

/-- Python `str.upper()` (ASCII, which covers every string the program compares). -/
def strUpper (s : String) : String :=
  ⟨s.data.map Char.toUpper⟩

/-- Python `str.lower()` (ASCII). -/
def strLower (s : String) : String :=
  ⟨s.data.map Char.toLower⟩

/-- App helper `is_empty`: true when the value is missing (`pd.isna`) or its
string form strips to the empty string.  Missing cells are modelled as `""`. -/
def isEmptyStr (s : String) : Bool :=
  decide (strTrim s = "")

/-- Substring containment over char lists (`pat` occurs inside `l`). -/
def containsList (l pat : List Char) : Bool :=
  (List.range (l.length + 1)).any (fun i => pat.isPrefixOf (l.drop i))

/-- The CRONO SC product-family test used throughout the app:
`"CRONO SC" in s.upper()` and `Series.str.contains("CRONO SC", case=False)`
are both case-insensitive substring tests. -/
def cronoModel (s : String) : Bool :=
  containsList (strUpper s).data "CRONO SC".data

/-! ## Calendar dates and timestamps -/

/-- Gregorian leap-year rule (as used by `datetime` / pandas). -/
def isLeap (y : Nat) : Bool :=
  y % 4 == 0 && (y % 100 != 0 || y % 400 == 0)

/-- Number of days in a month. -/
def daysInMonth (y : Nat) (m : Nat) : Nat :=
  if m == 2 then (if isLeap y then 29 else 28)
  else if m == 4 || m == 6 || m == 9 || m == 11 then 30
  else 31

/-- A calendar date. -/
structure Date where
  year : Nat
  month : Nat
  day : Nat
deriving DecidableEq, Repr

/-- Strict lexicographic order on dates. -/
def dateLt (a b : Date) : Bool :=
  decide (a.year < b.year) ||
    (decide (a.year = b.year) &&
      (decide (a.month < b.month) ||
        (decide (a.month = b.month) && decide (a.day < b.day))))

/-- Non-strict order on dates. -/
def dateLe (a b : Date) : Bool :=
  dateLt a b || decide (a = b)

/-- A timestamp: calendar date plus seconds elapsed within the day.
Models a pandas `Timestamp` / Python `datetime`. -/
structure DateTime where
  date : Date
  secs : Nat
deriving DecidableEq, Repr

/-- Strict order on timestamps. -/
def dtLt (a b : DateTime) : Bool :=
  dateLt a.date b.date || (decide (a.date = b.date) && decide (a.secs < b.secs))

/-- Non-strict order on timestamps. -/
def dtLe (a b : DateTime) : Bool :=
  dtLt a b || decide (a = b)

/-- `relativedelta(months=k)` on a date: month arithmetic with the day
clamped to the length of the target month. -/
def addMonthsDate (d : Date) (k : Nat) : Date :=
  let t := d.year * 12 + (d.month - 1) + k
  let y := t / 12
  let m := t % 12 + 1
  ⟨y, m, min d.day (daysInMonth y m)⟩

/-- `relativedelta(years=k)` on a date (clamps Feb 29 in non-leap targets). -/
def addYearsDate (d : Date) (k : Nat) : Date :=
  ⟨d.year + k, d.month, min d.day (daysInMonth (d.year + k) d.month)⟩

/-- `relativedelta(months=k)` on a timestamp: the time of day is preserved. -/
def addMonthsDT (t : DateTime) (k : Nat) : DateTime :=
  ⟨addMonthsDate t.date k, t.secs⟩

/-- `relativedelta(years=k)` on a timestamp. -/
def addYearsDT (t : DateTime) (k : Nat) : DateTime :=
  ⟨addYearsDate t.date k, t.secs⟩

/-! ## Date parsing (model of `pd.to_datetime` on the slash format) -/

/-- Digits of a decimal numeral to a number; `none` unless the char list is a
non-empty all-digit string. -/
def digitsToNat (l : List Char) : Option Nat :=
  if l.isEmpty || !(l.all Char.isDigit) then none
  else some (l.foldl (fun n c => n * 10 + (c.toNat - 48)) 0)

/-- Split a char list at every occurrence of a separator char. -/
def splitChar (c : Char) (l : List Char) : List (List Char) :=
  l.foldr
    (fun x acc =>
      if x == c then [] :: acc
      else
        match acc with
        | a :: rest => (x :: a) :: rest
        | [] => [[x]])
    [[]]

/-- Build a date after validating the month and the day against the month
length (pandas rejects out-of-range components). -/
def mkValidDate (y m d : Nat) : Option Date :=
  if 1 ≤ m ∧ m ≤ 12 ∧ 1 ≤ d ∧ d ≤ daysInMonth y m then some ⟨y, m, d⟩ else none

/-- Model of `pd.to_datetime(s, dayfirst=…)` restricted to the numeric
`n1/n2/yyyy` format the identifiers carry.  With `dayfirst` the first
component is preferred as the day; when that yields an invalid date the
components are swapped, which is what pandas does with its hint. -/
def parseSlashDate (dayfirst : Bool) (s : String) : Option Date :=
  match splitChar '/' s.data with
  | [a, b, c] =>
    match digitsToNat a, digitsToNat b, digitsToNat c with
    | some n1, some n2, some y =>
      if c.length == 4 then
        if dayfirst then (mkValidDate y n2 n1).orElse (fun _ => mkValidDate y n1 n2)
        else (mkValidDate y n1 n2).orElse (fun _ => mkValidDate y n2 n1)
      else none
    | _, _, _ => none
  | _ => none

/-- One step of `re.split(r"\s-\s", s)`: cut at every
whitespace, dash, whitespace triple, scanning left to right. -/
def splitWsDashWs : List Char → List Char → List (List Char)
  | acc, a :: b :: c :: rest =>
    if a.isWhitespace && b == '-' && c.isWhitespace then
      acc.reverse :: splitWsDashWs [] rest
    else
      splitWsDashWs (a :: acc) (b :: c :: rest)
  | acc, l => [acc.reverse ++ l]

/-- App helper `parse_date_from_id`: take the trailing segment of the id
(split on whitespace-dash-whitespace), strip it, and parse it day-first,
falling back to month-first.  A successful parse is a midnight timestamp. -/
def parse_date_from_id (idv : String) : Option DateTime :=
  if isEmptyStr idv then none
  else
    let parts := splitWsDashWs [] (strTrim idv).data
    let cand := strTrim ⟨parts.getLastD []⟩
    match parseSlashDate true cand with
    | some d => some ⟨d, 0⟩
    | none =>
      match parseSlashDate false cand with
      | some d => some ⟨d, 0⟩
      | none => none

/-! ## Cells and the expiry derivation -/

/-- A spreadsheet cell holding a date-like value: missing (`pd.NaT`/`pd.NA`),
an actual timestamp, or a raw string to be parsed. -/
inductive Cell where
  | na : Cell
  | ts : DateTime → Cell
  | str : String → Cell
deriving DecidableEq, Repr

/-- `pd.to_datetime(cell, errors="coerce")` on a stored cell: a timestamp
passes through, a string goes to the (month-first default) parser, anything
unparseable coerces to missing. -/
def parseCell : Cell → Option DateTime
  | .na => none
  | .ts t => some t
  | .str s => (parseSlashDate false s).map (fun d => ⟨d, 0⟩)

/-- `FIXED_EXPIRY_YEARS` in the app configuration. -/
def FIXED_EXPIRY_YEARS : Nat := 4

/-- `compute_expiry` from `load_db`: the explicitly stored expiry wins when it
parses; otherwise a date parsed from the id plus the fixed offset; otherwise
the cell is left unset. -/
def compute_expiry (expCell : Cell) (idv : String) : Cell :=
  match parseCell expCell with
  | some t => .ts t
  | none =>
    match parse_date_from_id idv with
    | some d => .ts (addYearsDT d FIXED_EXPIRY_YEARS)
    | none => .na

/-! ## Table rows and actors -/

/-- One row of the pump table (columns of the backing spreadsheet).
`patient` models the `Patient` cell with `pd.NA` collapsed to `""`;
`year` is the numeric `Year` cell (`none` for a missing/unparseable cell);
`expiry` is the `Expiry` cell. -/
structure Row where
  id : String
  client : String
  model : String
  qtySold : Nat
  serial : String
  year : Option Int
  status : String
  lastUpdated : String
  expiry : Cell
  patient : String
  notes : String
deriving DecidableEq, Repr

/-- The acting user as resolved from the credential config. -/
structure User where
  role : String
  client : String
  email : String
deriving DecidableEq, Repr

/-- Visibility test used by every notification branch:
admin sees all records, a client sees rows whose `Client` matches. -/
def visible (u : User) (r : Row) : Bool :=
  decide (u.role = "admin") || decide (r.client = u.client)

/-! ## Warning scan (`check_expirations`) -/

/-- The three expiry-warning tiers, most urgent first. -/
inductive Tier where
  | expired : Tier
  | oneMonth : Tier
  | sixMonths : Tier
deriving DecidableEq, Repr

/-- Tier selection from `check_expirations`: an `if`/`elif` chain, so the
tiers are mutually exclusive and the most urgent matching one wins.  The
expired test compares calendar dates (`exp.date() <= now.date()`); the two
proximity tests compare full timestamps. -/
def tierOf (now exp : DateTime) : Option Tier :=
  if dateLe exp.date now.date then some .expired
  else if dtLt now exp && dtLe exp (addMonthsDT now 1) then some .oneMonth
  else if dtLt now exp && dtLe exp (addMonthsDT now 6) then some .sixMonths
  else none

/-- A warning notification produced by the scan.  The e-mail formatting of the
source is abstracted to a constructor carrying the fields that identify the
warning and the record. -/
inductive Warning where
  | missingExpiry : String → String → Warning
  | expiryTier : Tier → String → String → Warning
  | cronoNoPatient : String → Warning
  | singlePump : String → String → Warning
deriving DecidableEq, Repr

/-- The per-row body of the `check_expirations` loop: a missing-expiry alert
for in-use rows without a parseable expiry, else a tier alert for rows whose
status is `In use`/`In stock`, each gated on visibility to the acting user. -/
def rowWarnings (now : DateTime) (u : User) (r : Row) : List Warning :=
  match parseCell r.expiry with
  | none =>
    if decide (strLower (strTrim r.status) = "in use") && visible u r then
      [.missingExpiry r.serial r.model]
    else []
  | some exp =>
    if !(decide (strTrim r.status = "In use") || decide (strTrim r.status = "In stock")) then []
    else
      match tierOf now exp with
      | some t => if visible u r then [.expiryTier t r.id r.serial] else []
      | none => []

/-- The per-row loop of `check_expirations` over the whole table. -/
def rowsWarnings (now : DateTime) (u : User) : List Row → List Warning
  | [] => []
  | r :: rest => rowWarnings now u r ++ rowsWarnings now u rest

/-- The trailing CRONO SC block of `check_expirations`: a no-patient alert per
visible CRONO SC row with an empty patient, then an under-paired alert for
every non-empty patient value carried by exactly one CRONO SC row. -/
def cronoBlock (u : User) (df : List Row) : List Warning :=
  let cronos := df.filter (fun r => cronoModel r.model)
  (cronos.filterMap (fun r =>
      if isEmptyStr r.patient && visible u r then some (.cronoNoPatient r.serial) else none))
  ++ ((cronos.map (fun r => r.patient)).dedup.filterMap (fun p =>
      if isEmptyStr p then none
      else if cronos.countP (fun r => decide (r.patient = p)) == 1 then
        match cronos.find? (fun r => decide (r.patient = p)) with
        | some sample => if visible u sample then some (.singlePump p sample.serial) else none
        | none => none
      else none))

/-- `check_expirations(df, current_user)`: the warnings (notification e-mails)
emitted by one scan of the table. -/
def check_expirations (now : DateTime) (df : List Row) (u : User) : List Warning :=
  rowsWarnings now u df ++ cronoBlock u df

/-! ## Edit-save (`render_editable_pump`) -/

/-- The edit-form fields submitted with Save Changes.  `expiry` comes from a
date picker (a calendar date), `patientInput` is the raw text of the patient
field in session state, `nowStr` the formatted save timestamp. -/
structure EditForm where
  model : String
  year : String
  status : String
  client : String
  notes : String
  expiry : Date
  qty : Nat
  serial : String
  patientInput : String
  nowStr : String
deriving DecidableEq, Repr

/-- Outcome of the Save Changes handler.  The three error constructors are the
three early-return `st.error` branches (`errLocked` is the branch that also
sends the attempted-patient-change notification); `saved` carries the table
passed to `save_db`. -/
inductive EditResult where
  | errRequired : EditResult
  | errLocked : EditResult
  | errCap : EditResult
  | saved : List Row → EditResult
deriving DecidableEq, Repr

/-- Python `int(...)` on a stripped decimal string with an optional sign,
`none` on failure — the happy path of the `safe_int` helper. -/
def pyInt (s : String) : Option Int :=
  match (strTrim s).data with
  | '-' :: rest => (digitsToNat rest).map (fun n => -(n : Int))
  | '+' :: rest => (digitsToNat rest).map (fun n => (n : Int))
  | l => (digitsToNat l).map (fun n => (n : Int))

/-- `safe_int(y, default=row.get("Year"))` used for the Year field. -/
def safeIntYear (s : String) (dflt : Option Int) : Option Int :=
  match pyInt s with
  | some n => some n
  | none => dflt

/-- The `assigned_patient` expression of the save handler: the original value
when it is non-empty, else the stripped session-state input.  The code
computes the written `new_patient_val` with the identical expression. -/
def assignedOf (f : EditForm) (row : Row) : String :=
  if isEmptyStr row.patient then strTrim f.patientInput else row.patient

/-- The `update_vals` overwrite applied to every row matching the edited id,
plus the conditional Patient write (`a?` is `some assigned` exactly when the
edited model matches CRONO SC). -/
def updateRow (f : EditForm) (a? : Option String) (r : Row) : Row :=
  { r with
    model := f.model
    year := safeIntYear f.year r.year
    status := f.status
    client := f.client
    notes := f.notes
    expiry := Cell.ts ⟨f.expiry, 0⟩
    qtySold := f.qty
    serial := f.serial
    lastUpdated := f.nowStr
    patient := match a? with
      | some a => a
      | none => r.patient }

/-- Count of CRONO SC rows carrying a given patient value — the
`existing_count` filter of both mutation paths. -/
def cntPatient (p : String) (df : List Row) : Nat :=
  df.countP (fun r => cronoModel r.model && decide (r.patient = p))

/-- The Save Changes handler of `render_editable_pump`: the CRONO SC guard
chain (patient required, patient locked, patient cap) followed by the
update-by-id write-back of every edited field.  The source computes
`assigned_patient` once and reuses the same expression for the written
value; here that shared expression is `assignedOf f row`. -/
def editSave (f : EditForm) (row : Row) (df : List Row) : EditResult :=
  if cronoModel f.model then
    if isEmptyStr row.patient && isEmptyStr (assignedOf f row) then .errRequired
    else if !isEmptyStr row.patient && decide (assignedOf f row ≠ row.patient) then .errLocked
    else if 2 ≤ cntPatient (assignedOf f row) df ∧ assignedOf f row ≠ row.patient then .errCap
    else .saved (df.map (fun r =>
      if decide (r.id = row.id) then updateRow f (some (assignedOf f row)) r else r))
  else
    .saved (df.map (fun r =>
      if decide (r.id = row.id) then updateRow f none r else r))

/-- Table state after a Save Changes attempt: a rejected mutation leaves the
table untouched. -/
def resultTable (df : List Row) : EditResult → List Row
  | .saved d => d
  | _ => df

/-! ## Add-pump (`add_pump_form`) -/

/-- The add-pump form fields.  `newPatient` is `""` unless the model matches
CRONO SC (the source hard-wires `""` otherwise); `client` is the acting
client the new row is attributed to. -/
structure AddForm where
  newId : String
  newModel : String
  newYear : Int
  newStatus : String
  newNotes : String
  newQty : Nat
  newSerial : String
  newExpiry : Date
  newPatient : String
  client : String
  nowStr : String
deriving DecidableEq, Repr

/-- Outcome of the add-pump submission. -/
inductive AddResult where
  | errMissing : AddResult
  | errPatientRequired : AddResult
  | errCap : AddResult
  | added : List Row → AddResult
deriving DecidableEq, Repr

/-- The `new_row` record appended by the add-pump form. -/
def mkNewRow (g : AddForm) (p : String) : Row :=
  { id := g.newId
    client := g.client
    model := g.newModel
    qtySold := g.newQty
    serial := g.newSerial
    year := some g.newYear
    status := g.newStatus
    lastUpdated := g.nowStr
    expiry := Cell.ts ⟨g.newExpiry, 0⟩
    patient := p
    notes := g.newNotes }

/-- The add-pump submission handler: required-field check, then for CRONO SC
models the required-patient and patient-cap guards, then the append. -/
def addPump (g : AddForm) (df : List Row) : AddResult :=
  if strTrim g.newId = "" ∨ strTrim g.newModel = "" then .errMissing
  else if cronoModel g.newModel then
    if isEmptyStr g.newPatient then .errPatientRequired
    else if 2 ≤ cntPatient g.newPatient df then .errCap
    else .added (df ++ [mkNewRow g g.newPatient])
  else .added (df ++ [mkNewRow g ""])

/-! ## Notification dispatch (`send_email`) and persistence (`save_db`) -/

/-- A transport attempt made by `send_email`: the primary SSL connection or
the STARTTLS-upgrade fallback. -/
inductive Attempt where
  | sslPrimary : Attempt
  | starttlsFallback : Attempt
deriving DecidableEq, Repr

/-- Python truthiness of an optional credential string: configured means
present and non-empty. -/
def configured : Option String → Bool
  | none => false
  | some s => !decide (s = "")

/-- `send_email(to, subject, body)` with the two transport outcomes passed in
as oracles (`Except.error` models the exception the source catches).  Returns
the boolean result paired with the list of transport attempts made, in
order.  The embedding is total: no exception reaches the caller. -/
def send_email (user pw : Option String) (primary fallback : Except String Unit) :
    Bool × List Attempt :=
  if !(configured user && configured pw) then (false, [])
  else
    match primary with
    | .ok _ => (true, [.sslPrimary])
    | .error _ =>
      match fallback with
      | .ok _ => (true, [.sslPrimary, .starttlsFallback])
      | .error _ => (false, [.sslPrimary, .starttlsFallback])

/-- `save_db(df)` with the spreadsheet write outcome passed in as an oracle.
Returns the boolean result paired with whether the read cache was
invalidated (`load_db.clear()`, an infallible cache drop the source wraps
defensively).  Total: the write exception is caught, never re-raised. -/
def save_db (writeRes : Except String Unit) : Bool × Bool :=
  match writeRes with
  | .error _ => (false, false)
  | .ok _ => (true, true)

/-! ## Concrete instances used by the counterexamples and witnesses -/

/-- A row template for concrete tables: a stock row of the given id, model
and patient. -/
def sampleRow (i m p : String) : Row :=
  { id := i, client := "ACME", model := m, qtySold := 0, serial := "SER-" ++ i,
    year := none, status := "In stock", lastUpdated := "2024-01-01 00:00:00",
    expiry := Cell.na, patient := p, notes := "" }

/-- An edit form template: the given edited model and patient input, with the
other fields fixed. -/
def sampleEdit (m pin : String) : EditForm :=
  { model := m, year := "2021", status := "In use", client := "ACME",
    notes := "edited", expiry := ⟨2026, 6, 1⟩, qty := 1, serial := "SER-A",
    patientInput := pin, nowStr := "2024-06-01 10:00:00" }

/-- Two unassigned CRONO SC rows sharing the id A, plus one CRONO SC row
carrying patient P. -/
def dupIdTable : List Row :=
  [sampleRow "A" "CRONO SC" "", sampleRow "A" "CRONO SC" "",
   sampleRow "B" "CRONO SC" "P"]

/-- A non-CRONO row that still carries patient P (reachable by editing a
CRONO SC row's model away), plus two CRONO SC rows with patient P. -/
def carriedTable : List Row :=
  [sampleRow "A" "OTHER" "P", sampleRow "B" "CRONO SC" "P",
   sampleRow "C" "CRONO SC" "P"]

/-- The add-pump form of the P100 scenario: a third CRONO SC pump for
patient P100. -/
def capAddForm : AddForm :=
  { newId := "N3", newModel := "CRONO SC", newYear := 2024,
    newStatus := "In stock", newNotes := "", newQty := 0, newSerial := "SER-N3",
    newExpiry := ⟨2028, 1, 1⟩, newPatient := "P100", client := "ACME",
    nowStr := "2024-06-01 10:00:00" }

/-- Two CRONO SC rows already assigned to patient P100. -/
def p100Table : List Row :=
  [sampleRow "A" "CRONO SC" "P100", sampleRow "B" "CRONO SC" "P100"]

/-- A CRONO SC row whose patient is already set to P1. -/
def lockedRow : Row := sampleRow "A" "CRONO SC" "P1"

/-- Three CRONO SC rows sharing patient P9: a pre-existing cap violation. -/
def tripleTable : List Row :=
  [sampleRow "A" "CRONO SC" "P9", sampleRow "B" "CRONO SC" "P9",
   sampleRow "C" "CRONO SC" "P9"]

/-- The admin actor. -/
def adminUser : User :=
  { role := "admin", client := "", email := "admin@localhost" }

/-- An in-use row with no expiry set. -/
def inUseRow : Row :=
  { sampleRow "U1" "MODEL-X" "" with status := "In use" }

/-- A stock row expiring 20 days after the reference instant
2024-03-01 00:00. -/
def tierRow : Row :=
  { sampleRow "R20" "MODEL-X" "" with expiry := Cell.ts ⟨⟨2024, 3, 21⟩, 0⟩ }

/-- A stock row expiring between one and six months after the reference
instant 2024-03-01 00:00. -/
def tierRowSix : Row :=
  { sampleRow "R6" "MODEL-X" "" with expiry := Cell.ts ⟨⟨2024, 8, 15⟩, 0⟩ }

/-! ## Shared lemmas -/

/-- Strings on opposite sides of the emptiness test differ. -/
theorem ne_of_isEmpty_mismatch {a b : String}
    (ha : isEmptyStr a = false) (hb : isEmptyStr b = true) : a ≠ b := by
  intro e
  rw [e, hb] at ha
  cases ha

/-- Totality of the date order: a failed comparison flips. -/
theorem dateLt_of_dateLe_false {x y : Date} (h : dateLe x y = false) :
    dateLt y x = true := by
  cases x with
  | mk x1 x2 x3 =>
    cases y with
    | mk y1 y2 y3 =>
      revert h
      simp [dateLe, dateLt, Date.mk.injEq]
      omega

/-- A strictly later calendar date means a strictly later timestamp. -/
theorem dtLt_of_dateLe_false {now exp : DateTime}
    (h : dateLe exp.date now.date = false) : dtLt now exp = true := by
  have h2 := dateLt_of_dateLe_false h
  simp [dtLt, h2]

/-- An update-by-id map leaves a list without the target id unchanged. -/
theorem map_untouched (g : Row → Row) (tid : String) (l : List Row)
    (h : ∀ r ∈ l, ¬(r.id = tid)) :
    l.map (fun r => if decide (r.id = tid) then g r else r) = l := by
  induction l with
  | nil => rfl
  | cons a l ih =>
    have ha : ¬(a.id = tid) := h a (List.mem_cons_self a l)
    simp only [List.map_cons]
    rw [ih (fun r hr => h r (List.mem_cons_of_mem _ hr))]
    congr 1
    simp [ha]

/-- In a table with pairwise distinct ids, a member sharing the id of the
member `row` is `row` itself. -/
theorem eq_of_mem_of_id_eq {row r : Row} {df : List Row}
    (hnd : (df.map Row.id).Nodup) (hrow : row ∈ df) (hr : r ∈ df)
    (hid : r.id = row.id) : r = row := by
  obtain ⟨s, t, rfl⟩ := List.append_of_mem hrow
  have hmid : (Row.id row :: (s.map Row.id ++ t.map Row.id)).Nodup := by
    apply List.nodup_middle.mp
    simpa using hnd
  have hnot : Row.id row ∉ s.map Row.id ++ t.map Row.id :=
    (List.nodup_cons.mp hmid).1
  rcases List.mem_append.mp hr with hs | hc
  · exact absurd (List.mem_append_left _ (hid ▸ List.mem_map_of_mem Row.id hs)) hnot
  · rcases List.mem_cons.mp hc with he | ht
    · exact he
    · exact absurd (List.mem_append_right _ (hid ▸ List.mem_map_of_mem Row.id ht)) hnot

/-- Effect of the update-by-id write-back on the patient count: in a table
with distinct ids containing the edited row, the count decomposes into the
contribution of the other rows plus that of the (old, respectively updated)
edited row. -/
theorem cnt_update (p : String) (g : Row → Row) (row : Row) (df : List Row)
    (hnd : (df.map Row.id).Nodup) (hrow : row ∈ df) :
    ∃ n : Nat,
      cntPatient p df
        = n + (if cronoModel row.model && decide (row.patient = p) then 1 else 0)
      ∧ cntPatient p (df.map (fun r => if decide (r.id = row.id) then g r else r))
        = n + (if cronoModel (g row).model && decide ((g row).patient = p) then 1 else 0) := by
  obtain ⟨s, t, rfl⟩ := List.append_of_mem hrow
  have hmid : (Row.id row :: (s.map Row.id ++ t.map Row.id)).Nodup := by
    apply List.nodup_middle.mp
    simpa using hnd
  have hnot : Row.id row ∉ s.map Row.id ++ t.map Row.id :=
    (List.nodup_cons.mp hmid).1
  have hs : ∀ r ∈ s, ¬(r.id = row.id) := by
    intro r hr he
    exact hnot (List.mem_append_left _ (he ▸ List.mem_map_of_mem Row.id hr))
  have ht : ∀ r ∈ t, ¬(r.id = row.id) := by
    intro r hr he
    exact hnot (List.mem_append_right _ (he ▸ List.mem_map_of_mem Row.id hr))
  refine ⟨cntPatient p s + cntPatient p t, ?_, ?_⟩
  · unfold cntPatient
    simp [List.countP_append, List.countP_cons]
    omega
  · unfold cntPatient
    rw [List.map_append, List.map_cons, map_untouched g row.id s hs,
        map_untouched g row.id t ht]
    have hrefl : (if decide (row.id = row.id) then g row else row) = g row := by simp
    rw [hrefl]
    simp [List.countP_append, List.countP_cons]
    omega

/-- Appending one row adds at most its own contribution to a patient count. -/
theorem cnt_append_single (p : String) (df : List Row) (r : Row) :
    cntPatient p (df ++ [r])
      = cntPatient p df
        + (if cronoModel r.model && decide (r.patient = p) then 1 else 0) := by
  unfold cntPatient
  simp [List.countP_append, List.countP_cons]

/-- Pointwise patient preservation lifts to the mapped patient column. -/
theorem map_patient_pointwise (u : Row → Row) (l : List Row)
    (h : ∀ r ∈ l, (u r).patient = r.patient) :
    (l.map u).map Row.patient = l.map Row.patient := by
  induction l with
  | nil => rfl
  | cons a l ih =>
    simp only [List.map_cons, h a (List.mem_cons_self a l)]
    rw [ih (fun r hr => h r (List.mem_cons_of_mem _ hr))]

/-- A warning emitted for a member row occurs in the warnings of the whole
per-row loop. -/
theorem mem_rowsWarnings {now : DateTime} {u : User} {r : Row} {df : List Row}
    {w : Warning} (hmem : r ∈ df) (hw : w ∈ rowWarnings now u r) :
    w ∈ rowsWarnings now u df := by
  induction df with
  | nil => cases hmem
  | cons a l ih =>
    rcases List.mem_cons.mp hmem with he | hl
    · subst he
      exact List.mem_append_left _ hw
    · exact List.mem_append_right _ (ih hl)

/-! ## Claim theorems -/

/-- C1: for every loaded row the derived expiry is resolved with priority —
the explicitly stored expiry value when it parses as a date; otherwise, when
the trailing segment of the id parses as a date D (day-first preferred,
month-first fallback), the expiry is D plus 4 years; otherwise the expiry is
unset.  In particular a record with id PX-01 - 05/01/2020 and no explicit
expiry derives the expiry 5 January 2024. -/
theorem c1_expiry_priority :
    (∀ (c : Cell) (i : String) (t : DateTime),
        parseCell c = some t → compute_expiry c i = Cell.ts t)
  ∧ (∀ (c : Cell) (i : String) (d : DateTime),
        parseCell c = none → parse_date_from_id i = some d →
        compute_expiry c i = Cell.ts (addYearsDT d 4))
  ∧ (∀ (c : Cell) (i : String),
        parseCell c = none → parse_date_from_id i = none →
        compute_expiry c i = Cell.na)
  ∧ compute_expiry Cell.na "PX-01 - 05/01/2020" = Cell.ts ⟨⟨2024, 1, 5⟩, 0⟩ := by
  refine ⟨?_, ?_, ?_, by decide⟩
  · intro c i t h
    simp [compute_expiry, h]
  · intro c i d h1 h2
    simp [compute_expiry, h1, h2, FIXED_EXPIRY_YEARS]
  · intro c i h1 h2
    simp [compute_expiry, h1, h2]

theorem c1_expiry_priority_witness :
    compute_expiry (Cell.ts ⟨⟨2030, 5, 1⟩, 0⟩) "PX-01 - 05/01/2020"
      = Cell.ts ⟨⟨2030, 5, 1⟩, 0⟩
  ∧ compute_expiry (Cell.str "junk") "PX-02 - 14/02/2021"
      = Cell.ts (addYearsDT ⟨⟨2021, 2, 14⟩, 0⟩ 4)
  ∧ compute_expiry Cell.na "PX-03" = Cell.na :=
  ⟨c1_expiry_priority.1 _ _ _ rfl,
   c1_expiry_priority.2.1 _ _ _ rfl (by decide),
   c1_expiry_priority.2.2.1 _ _ rfl (by decide)⟩

/-- C7: the expiry recomputation is idempotent — applying the derivation to a
cell it itself produced, with the id unchanged, returns the same value. -/
theorem c7_expiry_idempotent (c : Cell) (i : String) :
    compute_expiry (compute_expiry c i) i = compute_expiry c i := by
  cases hc : parseCell c with
  | some t =>
    have h1 : compute_expiry c i = Cell.ts t := by simp [compute_expiry, hc]
    rw [h1]
    simp [compute_expiry, parseCell]
  | none =>
    cases hi : parse_date_from_id i with
    | some d =>
      have h1 : compute_expiry c i = Cell.ts (addYearsDT d FIXED_EXPIRY_YEARS) := by
        simp [compute_expiry, hc, hi]
      rw [h1]
      simp [compute_expiry, parseCell]
    | none =>
      have h1 : compute_expiry c i = Cell.na := by simp [compute_expiry, hc, hi]
      rw [h1]
      simp [compute_expiry, parseCell, hi]

/-- C8: save returns false on a write failure without raising, and on a
successful write invalidates the read cache and returns true (the embedded
operation is total, so no exception reaches the caller). -/
theorem c8_save_db_contract :
    (∀ e : String, save_db (Except.error e) = (false, false))
  ∧ save_db (Except.ok ()) = (true, true) :=
  ⟨fun _ => rfl, rfl⟩

/-- C6: notification dispatch attempts the primary secure transport first, on
its failure makes exactly one fallback attempt with session upgrade, returns
true when some attempt succeeds, returns false when both fail, and with
unconfigured credentials returns false after making no attempt at all; the
embedded operation is total, so no exception reaches the caller. -/
theorem c6_send_email_fallback :
    (∀ (u pw : Option String) (pr fb : Except String Unit),
        (configured u && configured pw) = false →
        send_email u pw pr fb = (false, []))
  ∧ (∀ (u pw : Option String) (fb : Except String Unit),
        (configured u && configured pw) = true →
        send_email u pw (Except.ok ()) fb = (true, [Attempt.sslPrimary]))
  ∧ (∀ (u pw : Option String) (e : String),
        (configured u && configured pw) = true →
        send_email u pw (Except.error e) (Except.ok ())
          = (true, [Attempt.sslPrimary, Attempt.starttlsFallback]))
  ∧ (∀ (u pw : Option String) (e e2 : String),
        (configured u && configured pw) = true →
        send_email u pw (Except.error e) (Except.error e2)
          = (false, [Attempt.sslPrimary, Attempt.starttlsFallback])) := by
  refine ⟨?_, ?_, ?_, ?_⟩ <;> intros <;> simp [send_email, *]

theorem c6_send_email_witness :
    send_email none none (Except.ok ()) (Except.ok ()) = (false, [])
  ∧ send_email (some "cmc@localhost") (some "pw") (Except.error "down")
      (Except.error "down")
      = (false, [Attempt.sslPrimary, Attempt.starttlsFallback]) :=
  ⟨c6_send_email_fallback.1 none none _ _ (by decide),
   c6_send_email_fallback.2.2.2 _ _ "down" "down" (by decide)⟩

/-- C5: for every record visible to the acting user whose status is In use
and whose expiry is unset (unparseable), the warning scan produces a missing
expiry warning for that record. -/
theorem c5_missing_expiry_warning (now : DateTime) (u : User) (df : List Row)
    (r : Row) (hmem : r ∈ df) (hvis : visible u r = true)
    (hst : r.status = "In use") (hexp : parseCell r.expiry = none) :
    Warning.missingExpiry r.serial r.model ∈ check_expirations now df u := by
  have hcomp : strLower (strTrim "In use") = "in use" := by decide
  have hw : Warning.missingExpiry r.serial r.model ∈ rowWarnings now u r := by
    simp [rowWarnings, hexp, hst, hvis, hcomp]
  exact List.mem_append_left _ (mem_rowsWarnings hmem hw)

theorem c5_missing_expiry_witness :
    Warning.missingExpiry "SER-U1" "MODEL-X"
      ∈ check_expirations ⟨⟨2024, 3, 1⟩, 0⟩ [inUseRow] adminUser :=
  c5_missing_expiry_warning ⟨⟨2024, 3, 1⟩, 0⟩ adminUser [inUseRow] inUseRow
    (by decide) (by decide) rfl rfl

/-- C9: the patient-cap check rejects an edit only when the assigned patient
value differs from the record's original value — an edit-save that leaves the
patient unchanged (a non-CRONO edited model, or an already non-empty original
patient forcing the assigned value back to the original) is never rejected
with the cap error, even when more than 2 CRONO SC records already share that
value. -/
theorem c9_unchanged_patient_not_cap_rejected (f : EditForm) (row : Row)
    (df : List Row)
    (h : cronoModel f.model = false ∨ isEmptyStr row.patient = false) :
    editSave f row df ≠ EditResult.errCap := by
  rcases h with h | h
  · simp [editSave, h]
  · by_cases hc : cronoModel f.model
    · have ha : assignedOf f row = row.patient := by simp [assignedOf, h]
      simp [editSave, hc, ha, h]
    · simp [editSave, hc]

theorem c9_unchanged_patient_witness :
    cntPatient "P9" tripleTable = 3
  ∧ editSave (sampleEdit "CRONO SC" "PX") (sampleRow "A" "CRONO SC" "P9")
      tripleTable ≠ EditResult.errCap :=
  ⟨by decide,
   c9_unchanged_patient_not_cap_rejected (sampleEdit "CRONO SC" "PX")
     (sampleRow "A" "CRONO SC" "P9") tripleTable (Or.inr (by decide))⟩

/-- C10: an edit-save whose edited model does not contain CRONO SC
(case-insensitively) leaves the Patient field of every row unchanged — the
edit path writes the Patient column only when the edited model matches. -/
theorem c10_noncrono_patient_frame (f : EditForm) (row : Row)
    (df df' : List Row) (hc : cronoModel f.model = false)
    (h : editSave f row df = EditResult.saved df') :
    df'.map Row.patient = df.map Row.patient := by
  simp only [editSave, hc, Bool.false_eq_true, if_false, EditResult.saved.injEq] at h
  rw [← h]
  apply map_patient_pointwise
  intro r _
  by_cases hid : r.id = row.id
  · simp [hid, updateRow]
  · simp [hid]

theorem c10_noncrono_patient_witness :
    (resultTable tripleTable
        (editSave (sampleEdit "MODEL-Y" "PX") (sampleRow "A" "CRONO SC" "P9")
          tripleTable)).map Row.patient
      = tripleTable.map Row.patient :=
  c10_noncrono_patient_frame (sampleEdit "MODEL-Y" "PX")
    (sampleRow "A" "CRONO SC" "P9") tripleTable _ (by decide) rfl

/-- C4 counterexample: an expiry strictly after now but on the same calendar
date satisfies the claim's within-1-month bounds (now < expiry and
expiry at most now + 1 month), yet the scan classifies it as expired — the
expired tier is decided on calendar dates, not on the claimed
timestamp comparison. -/
theorem c4_tier_counterexample :
    dtLt ⟨⟨2024, 1, 10⟩, 36000⟩ ⟨⟨2024, 1, 10⟩, 72000⟩ = true
  ∧ dtLe ⟨⟨2024, 1, 10⟩, 72000⟩ (addMonthsDT ⟨⟨2024, 1, 10⟩, 36000⟩ 1) = true
  ∧ tierOf ⟨⟨2024, 1, 10⟩, 36000⟩ ⟨⟨2024, 1, 10⟩, 72000⟩ = some Tier.expired
  ∧ tierOf ⟨⟨2024, 1, 10⟩, 36000⟩ ⟨⟨2024, 1, 10⟩, 72000⟩ ≠ some Tier.oneMonth := by
  decide

/-- C4 amended: for every record with status In use or In stock and a
parseable expiry at most now + 6 months, the scan assigns exactly one of the
three mutually exclusive tiers with the most urgent matching tier winning —
expired when the expiry's calendar date is on or before now's calendar date
(even when the expiry timestamp is still ahead of now within that day), else
within-1-month when the expiry is at most now + 1 month, else
within-6-months; a record with expiry 20 days from now and status In stock
gets the 1-month tier, not the 6-month tier. -/
theorem c4_tier_amended :
    (∀ (now : DateTime) (u : User) (r : Row) (exp : DateTime),
        parseCell r.expiry = some exp →
        (strTrim r.status = "In use" ∨ strTrim r.status = "In stock") →
        visible u r = true →
        dtLe exp (addMonthsDT now 6) = true →
        rowWarnings now u r =
          [Warning.expiryTier
            (if dateLe exp.date now.date then Tier.expired
             else if dtLe exp (addMonthsDT now 1) then Tier.oneMonth
             else Tier.sixMonths) r.id r.serial])
  ∧ rowWarnings ⟨⟨2024, 3, 1⟩, 0⟩ adminUser tierRow
      = [Warning.expiryTier Tier.oneMonth "R20" "SER-R20"] := by
  constructor
  · intro now u r exp hexp hst hvis h6
    have hstatus :
        (decide (strTrim r.status = "In use")
          || decide (strTrim r.status = "In stock")) = true := by
      rcases hst with h | h <;> simp [h]
    by_cases hd : dateLe exp.date now.date
    · simp [rowWarnings, hexp, hstatus, tierOf, hd, hvis]
    · have hlt : dtLt now exp = true :=
        dtLt_of_dateLe_false (by simpa using hd)
      by_cases h1 : dtLe exp (addMonthsDT now 1) = true
      · simp [rowWarnings, hexp, hstatus, tierOf, hd, hlt, h1, hvis]
      · have h1f : dtLe exp (addMonthsDT now 1) = false := by
          simpa using h1
        simp [rowWarnings, hexp, hstatus, tierOf, hd, hlt, h1f, h6, hvis]
  · decide

theorem c4_tier_witness :
    rowWarnings ⟨⟨2024, 3, 1⟩, 0⟩ adminUser tierRowSix
      = [Warning.expiryTier
          (if dateLe (⟨2024, 8, 15⟩ : Date) (⟨2024, 3, 1⟩ : Date) then Tier.expired
           else if dtLe ⟨⟨2024, 8, 15⟩, 0⟩ (addMonthsDT ⟨⟨2024, 3, 1⟩, 0⟩ 1) then
             Tier.oneMonth
           else Tier.sixMonths) "R6" "SER-R6"] :=
  c4_tier_amended.1 ⟨⟨2024, 3, 1⟩, 0⟩ adminUser tierRowSix ⟨⟨2024, 8, 15⟩, 0⟩
    rfl (Or.inr (by decide)) (by decide) (by decide)

/-- C3 counterexample: an edit of a CRONO SC record with a non-empty stored
patient P1 submitting the different non-empty patient P2 is not rejected —
the save handler substitutes the original patient for the submitted value, so
the guarded reject-and-notify branch never fires, the mutation is persisted
(the saved table differs from the original), and the stored patient stays
P1. -/
theorem c3_lock_counterexample :
    cronoModel (sampleEdit "CRONO SC" "P2").model = true
  ∧ isEmptyStr lockedRow.patient = false
  ∧ strTrim (sampleEdit "CRONO SC" "P2").patientInput ≠ lockedRow.patient
  ∧ isEmptyStr (strTrim (sampleEdit "CRONO SC" "P2").patientInput) = false
  ∧ editSave (sampleEdit "CRONO SC" "P2") lockedRow [lockedRow]
      ≠ EditResult.errLocked
  ∧ resultTable [lockedRow]
      (editSave (sampleEdit "CRONO SC" "P2") lockedRow [lockedRow])
      ≠ [lockedRow]
  ∧ (resultTable [lockedRow]
      (editSave (sampleEdit "CRONO SC" "P2") lockedRow [lockedRow])).map
        Row.patient = ["P1"] := by
  decide

/-- C3 amended: the save handler discards any submitted patient value for a
CRONO SC record whose patient is already non-empty, so the stored patient
value is unchanged by every edit; the rejecting branch that would also send a
notification is unreachable (no edit outcome is the patient-locked error),
and the rest of the mutation is persisted rather than rejected. -/
theorem c3_patient_preserved_amended :
    (∀ (f : EditForm) (row : Row) (df : List Row),
        editSave f row df ≠ EditResult.errLocked)
  ∧ (∀ (f : EditForm) (row : Row) (df df' : List Row),
        cronoModel f.model = true → isEmptyStr row.patient = false →
        (df.map Row.id).Nodup → row ∈ df →
        editSave f row df = EditResult.saved df' →
        df'.map Row.patient = df.map Row.patient) := by
  constructor
  · intro f row df
    by_cases hc : cronoModel f.model
    · by_cases ho : isEmptyStr row.patient
      · simp only [editSave, hc, if_true, ho, Bool.true_and, Bool.not_true,
          Bool.false_and, Bool.false_eq_true, if_false]
        split
        · simp
        · split <;> simp
      · have ha : assignedOf f row = row.patient := by simp [assignedOf, ho]
        simp [editSave, hc, ha, ho]
    · simp [editSave, hc]
  · intro f row df df' hc ho hnd hmem h
    have ha : assignedOf f row = row.patient := by simp [assignedOf, ho]
    simp [editSave, hc, ha, ho] at h
    rw [← h]
    apply map_patient_pointwise
    intro r hr
    by_cases hid : r.id = row.id
    · have he : r = row := eq_of_mem_of_id_eq hnd hmem hr hid
      subst he
      simp [updateRow]
    · simp [hid]

theorem c3_patient_preserved_witness :
    (resultTable [lockedRow]
        (editSave (sampleEdit "CRONO SC" "P3") lockedRow [lockedRow])).map
          Row.patient
      = [lockedRow].map Row.patient :=
  c3_patient_preserved_amended.2 (sampleEdit "CRONO SC" "P3") lockedRow
    [lockedRow] _ (by decide) (by decide) (by decide) (by decide) rfl

/-- C2 counterexample: the two-per-patient bound is not preserved by every
mutation.  First instance: with duplicate ids (two unassigned CRONO SC rows
share id A) an accepted edit assigning patient P writes the patient to both
rows at once, taking P's count from 1 to 3.  Second instance: with pairwise
distinct ids, editing a non-CRONO row that already carries patient P back to
a CRONO SC model keeps the original patient without any cap check, taking
P's count from 2 to 3. -/
theorem c2_cap_counterexample :
    (cntPatient "P" dupIdTable = 1
      ∧ cntPatient "P"
          (resultTable dupIdTable
            (editSave (sampleEdit "CRONO SC" "P") (sampleRow "A" "CRONO SC" "")
              dupIdTable)) = 3)
  ∧ ((carriedTable.map Row.id).Nodup
      ∧ cntPatient "P" carriedTable = 2
      ∧ cntPatient "P"
          (resultTable carriedTable
            (editSave (sampleEdit "CRONO SC" "X") (sampleRow "A" "OTHER" "P")
              carriedTable)) = 3) := by
  decide

/-- C2 amended: provided ids are pairwise distinct and every record already
carrying a non-empty patient matches CRONO SC, a patient value shared by at
most 2 CRONO SC records before an edit-save or add-pump mutation is shared by
at most 2 after it; an edit assigning a fresh non-empty patient value already
carried by 2 or more CRONO SC records, and an add of a CRONO SC pump whose
patient value is already carried by 2 or more, are rejected with the cap
error (and a rejection carries no table to persist); in particular, with two
CRONO SC records sharing patient P100, adding a third with patient P100 is
rejected. -/
theorem c2_patient_cap_amended :
    (∀ (f : EditForm) (row : Row) (df df' : List Row) (p : String),
        (df.map Row.id).Nodup → row ∈ df →
        (∀ r ∈ df, isEmptyStr r.patient = false → cronoModel r.model = true) →
        isEmptyStr p = false → cntPatient p df ≤ 2 →
        editSave f row df = EditResult.saved df' →
        cntPatient p df' ≤ 2)
  ∧ (∀ (g : AddForm) (df df' : List Row) (p : String),
        cntPatient p df ≤ 2 → addPump g df = AddResult.added df' →
        cntPatient p df' ≤ 2)
  ∧ (∀ (f : EditForm) (row : Row) (df : List Row),
        cronoModel f.model = true → isEmptyStr row.patient = true →
        isEmptyStr (strTrim f.patientInput) = false →
        2 ≤ cntPatient (strTrim f.patientInput) df →
        editSave f row df = EditResult.errCap)
  ∧ (∀ (g : AddForm) (df : List Row),
        strTrim g.newId ≠ "" → strTrim g.newModel ≠ "" →
        cronoModel g.newModel = true → isEmptyStr g.newPatient = false →
        2 ≤ cntPatient g.newPatient df →
        addPump g df = AddResult.errCap)
  ∧ addPump capAddForm p100Table = AddResult.errCap := by
  refine ⟨?_, ?_, ?_, ?_, by decide⟩
  · intro f row df df' p hnd hmem honly hp hcnt h
    by_cases hc : cronoModel f.model
    · by_cases ho : isEmptyStr row.patient
      · have ha : assignedOf f row = strTrim f.patientInput := by
          simp [assignedOf, ho]
        by_cases hea : isEmptyStr (strTrim f.patientInput)
        · simp [editSave, hc, ha, ho, hea] at h
        · have hea2 : isEmptyStr (strTrim f.patientInput) = false := by
            simpa using hea
          have hne : strTrim f.patientInput ≠ row.patient :=
            ne_of_isEmpty_mismatch hea2 ho
          by_cases hcap : 2 ≤ cntPatient (strTrim f.patientInput) df
          · simp [editSave, hc, ha, ho, hea, hcap, hne] at h
          · simp [editSave, hc, ha, ho, hea, hcap] at h
            obtain ⟨n, h1, h2⟩ :=
              cnt_update p (updateRow f (some (strTrim f.patientInput))) row df
                hnd hmem
            simp only [decide_eq_true_eq] at h2
            have hrp : row.patient ≠ p := (ne_of_isEmpty_mismatch hp ho).symm
            simp [hrp] at h1
            rw [← h, h2]
            by_cases hap : strTrim f.patientInput = p
            · rw [hap] at hcap
              simp [updateRow, hc, hap]
              omega
            · simp [updateRow, hap]
              omega
      · have ha : assignedOf f row = row.patient := by simp [assignedOf, ho]
        have hcr : cronoModel row.model = true :=
          honly row hmem (by simpa using ho)
        simp [editSave, hc, ha, ho] at h
        obtain ⟨n, h1, h2⟩ :=
          cnt_update p (updateRow f (some row.patient)) row df hnd hmem
        simp only [decide_eq_true_eq] at h2
        rw [← h, h2]
        by_cases hq : row.patient = p
        · simp [hcr, hq] at h1
          simp [updateRow, hc, hq]
          omega
        · simp [hq] at h1
          simp [updateRow, hq]
          omega
    · simp [editSave, hc] at h
      obtain ⟨n, h1, h2⟩ := cnt_update p (updateRow f none) row df hnd hmem
      simp only [decide_eq_true_eq] at h2
      rw [← h, h2]
      simp [updateRow, hc]
      by_cases hq : (cronoModel row.model && decide (row.patient = p)) = true
      · simp [hq] at h1
        omega
      · simp [hq] at h1
        omega
  · intro g df df' p hcnt h
    by_cases hm : strTrim g.newId = "" ∨ strTrim g.newModel = ""
    · simp [addPump, hm] at h
    · by_cases hc : cronoModel g.newModel
      · by_cases hep : isEmptyStr g.newPatient
        · simp [addPump, hm, hc, hep] at h
        · by_cases hcap : 2 ≤ cntPatient g.newPatient df
          · simp [addPump, hm, hc, hep, hcap] at h
          · simp [addPump, hm, hc, hep, hcap] at h
            rw [← h, cnt_append_single]
            by_cases hap : g.newPatient = p
            · subst hap
              simp [mkNewRow, hc]
              omega
            · simp [mkNewRow, hap]
              exact hcnt
      · simp [addPump, hm, hc] at h
        rw [← h, cnt_append_single]
        simp [mkNewRow, hc]
        exact hcnt
  · intro f row df hc ho hne hcap
    have ha : assignedOf f row = strTrim f.patientInput := by
      simp [assignedOf, ho]
    have hneq : strTrim f.patientInput ≠ row.patient :=
      ne_of_isEmpty_mismatch hne ho
    simp [editSave, hc, ha, ho, hne, hcap, hneq]
  · intro g df hid hmodel hc hep hcap
    simp [addPump, hid, hmodel, hc, hep, hcap]

theorem c2_patient_cap_witness :
    cntPatient "P100"
      (resultTable p100Table
        (editSave (sampleEdit "CRONO SC" "PZ")
          (sampleRow "A" "CRONO SC" "P100") p100Table)) ≤ 2 :=
  c2_patient_cap_amended.1 (sampleEdit "CRONO SC" "PZ")
    (sampleRow "A" "CRONO SC" "P100") p100Table _ "P100"
    (by decide) (by decide) (by decide) (by decide) (by decide) rfl

end CmcApp
